import Mathlib

/-!
Verification development for the Command & Safety Control subsystem of the
autonomous_robot repository: the UART protocol controller
(src/communication/uart_controller.py) and the patrol mode state machine
(src/modes/patrol_mode.py, src/modes/base_mode.py).

The Python source is shallowly embedded: Python floats are modelled as exact
rationals (ℚ), the controller object as an explicit state record, and the
three background workers (sender, watchdog, receiver) as explicit step
functions driven by an event list.  Serial-port writes are modelled by a
transcript (the wire) and an oracle list of write outcomes (empty list means
every write succeeds, mirroring a healthy link).
-/

/-- Model of Python int() applied to a real value: truncation toward zero
(floor for nonnegative values, negated floor of the negation otherwise). -/
def truncTowardZero (q : ℚ) : ℤ := if 0 ≤ q then ⌊q⌋ else -⌊-q⌋

/-- Whitespace test used by the model of str.strip(). -/
def isSpaceChar (c : Char) : Bool :=
  c == ' ' || c == '\t' || c == '\n' || c == '\r'

/-- Model of Python str.strip(): drop leading and trailing whitespace. -/
def pyStrip (s : String) : String :=
  String.mk (((s.data.dropWhile isSpaceChar).reverse.dropWhile isSpaceChar).reverse)

/-- Split a character list at every occurrence of the separator, keeping
empty segments, as Python str.split(sep) does. -/
def charsSplit (sep : Char) : List Char → List (List Char)
  | [] => [[]]
  | c :: cs =>
    let r := charsSplit sep cs
    if c == sep then [] :: r
    else
      match r with
      | [] => [[c]]
      | h :: t => (c :: h) :: t

/-- Model of Python str.split(sep) for a one-character separator. -/
def pySplit (s : String) (sep : Char) : List String :=
  (charsSplit sep s.data).map String.mk

/-- Character-list prefix test (model of str.startswith). -/
def listStartsWith : List Char → List Char → Bool
  | _, [] => true
  | [], _ :: _ => false
  | c :: cs, p :: ps => c == p && listStartsWith cs ps

/-- Model of Python str.startswith. -/
def pyStartsWith (s p : String) : Bool := listStartsWith s.data p.data

/-- All characters are ASCII digits. -/
def allDigits : List Char → Bool
  | [] => true
  | c :: cs => c.isDigit && allDigits cs

/-- Numeric value of a digit list, most significant first. -/
def decDigitsVal : List Char → ℕ
  | [] => 0
  | c :: cs => decDigitsVal cs + (c.toNat - 48) * 10 ^ cs.length

/-- String-level part of the model of Python float(): returns
(negative-sign, integer-part value, fraction value, fraction digit count)
for an optionally signed plain decimal literal, none when the literal is
malformed (which in the source raises ValueError). -/
def pyFloatParts (s : String) : Option (Bool × ℕ × ℕ × ℕ) :=
  let t := pyStrip s
  let (neg, body) :=
    if pyStartsWith t "-" then (true, (t.data.drop 1))
    else if pyStartsWith t "+" then (false, (t.data.drop 1))
    else (false, t.data)
  match charsSplit '.' body with
  | [i] =>
    if i ≠ [] && allDigits i then some (neg, decDigitsVal i, 0, 0) else none
  | [i, f] =>
    if (i ≠ [] || f ≠ []) && allDigits i && allDigits f then
      some (neg, decDigitsVal i, decDigitsVal f, f.length)
    else none
  | _ => none

/-- Model of Python float() on plain decimal literals, as an exact rational.
(The source only ever feeds such literals from the telemetry stream; the
binary-float rounding of CPython is abstracted to the exact decimal value.) -/
def pyFloat (s : String) : Option ℚ :=
  (pyFloatParts s).map fun p =>
    (if p.1 then (-1 : ℚ) else 1) * ((p.2.1 : ℚ) + (p.2.2.1 : ℚ) / 10 ^ p.2.2.2)

namespace UART

/-! Embedding of UARTController (src/communication/uart_controller.py).
Times are rationals (seconds).  Logging, the serial byte layer, and the
optional heartbeat/feedback callbacks are external effects and are not part
of the state; every command accepted by the write path is recorded on the
wire transcript together with the enabled flag at the moment of the write
and the code path that issued it. -/

/-- Command constants (source lines 51-59). -/
def CMD_ENABLE : String := "E1"

def CMD_DISABLE : String := "E0"

def CMD_VELOCITY : String := "V"

def CMD_YAW_RATE : String := "Y"

def CMD_LEG_HEIGHT : String := "H"

def CMD_ROLL : String := "R"

def CMD_JUMP : String := "J1"

def CMD_PWM : String := "C"

def CMD_HEARTBEAT : String := "?"

/-- Watchdog settings (source lines 62-64). -/
def HEARTBEAT_INTERVAL : ℚ := 1/2

def HEARTBEAT_TIMEOUT : ℚ := 3/2

def MAX_MISSED_HEARTBEATS : ℕ := 3

/-- config.LEG_HEIGHT = 0.15 and config.UART_COMMAND_RATE_HZ = 10
(src/core/config.py lines 193, 198). -/
def LEG_HEIGHT : ℚ := 15/100

def command_period : ℚ := 1/10

/-- Feedback data from STM32 (source lines 20-28). -/
structure RobotFeedback where
  velocity : ℚ := 0
  position : ℚ := 0
  yaw : ℚ := 0
  yaw_rate : ℚ := 0
  timestamp : ℚ := 0
  valid : Bool := false
deriving DecidableEq

/-- The code path that performed a direct serial write. -/
inductive TxPath where
  | queued
  | estop
  | watchdog
  | disableCtl
  | disconnectCtl
  | enableCtl
  | heartbeatPing
  | jump
  | pwm
deriving DecidableEq

/-- One successfully written command: the command text, the value of the
enabled flag at the moment of the write, and the issuing code path.  The
byte layer frames the text with a trailing newline (source line 575). -/
structure TxRec where
  cmd : String
  enabledAtSend : Bool
  path : TxPath
deriving DecidableEq

/-- Bookkeeping for queue insertions: the command text and the values of the
connected/enabled flags at the moment of the enqueue. -/
structure EnqRec where
  cmd : String
  connectedAtEnq : Bool
  enabledAtEnq : Bool
deriving DecidableEq

/-- The mutable state of a UARTController instance.  `serialOpen` models
`self._serial is not None and self._serial.is_open`; `wire` is the transcript
of successful writes; `enqLog` the transcript of queue insertions. -/
structure UARTState where
  serialOpen : Bool := false
  connected : Bool := false
  enabled : Bool := false
  running : Bool := false
  queue : List String := []
  lastCommandTime : ℚ := 0
  lastHeartbeatResponse : ℚ := 0
  missedHeartbeats : ℕ := 0
  feedback : RobotFeedback := {}
  wire : List TxRec := []
  enqLog : List EnqRec := []
deriving DecidableEq

/-- _format_velocity (source lines 585-597): scale by 1000, truncate. -/
def format_velocity (velocity : ℚ) : String :=
  CMD_VELOCITY ++ toString (truncTowardZero (velocity * 1000))

/-- _format_yaw_rate (source lines 599-611). -/
def format_yaw_rate (yaw_rate : ℚ) : String :=
  CMD_YAW_RATE ++ toString (truncTowardZero (yaw_rate * 1000))

/-- _format_leg_height (source lines 613-625). -/
def format_leg_height (height : ℚ) : String :=
  CMD_LEG_HEIGHT ++ toString (truncTowardZero (height * 1000))

/-- _format_roll (source lines 627-639). -/
def format_roll (roll : ℚ) : String :=
  CMD_ROLL ++ toString (truncTowardZero (roll * 1000))

/-- _format_pwm (source lines 641-651). -/
def format_pwm (duty : ℤ) : String := CMD_PWM ++ toString duty

/-- _send_command_direct (source lines 560-583): no-op returning False when
the serial object is absent/closed; otherwise the write succeeds or raises
SerialException (caught, returning False) according to the outcome oracle.
Returns (new state, remaining oracle, success flag). -/
def send_command_direct (s : UARTState) (path : TxPath) (ora : List Bool)
    (cmd : String) : UARTState × List Bool × Bool :=
  if s.serialOpen then
    match ora with
    | [] => ({ s with wire := s.wire ++ [⟨cmd, s.enabled, path⟩] }, [], true)
    | ok :: rest =>
      if ok then ({ s with wire := s.wire ++ [⟨cmd, s.enabled, path⟩] }, rest, true)
      else (s, rest, false)
  else (s, ora, false)

/-- Queue.put: append to the FIFO, recording the flags at enqueue time. -/
def enqueue (s : UARTState) (cmd : String) : UARTState :=
  { s with queue := s.queue ++ [cmd],
           enqLog := s.enqLog ++ [⟨cmd, s.connected, s.enabled⟩] }

/-- connect(), success branch (source lines 115-162): open the port, flush,
mark connected, stamp the heartbeat clock, start the three workers. -/
def connect_ok (s : UARTState) (now : ℚ) : UARTState :=
  { s with serialOpen := true, connected := true,
           lastHeartbeatResponse := now, running := true }

/-- connect(), failure branch (source lines 164-167). -/
def connect_fail (s : UARTState) : UARTState := { s with connected := false }

/-- disconnect() (source lines 169-188): stop the workers, send a final
disable if the link is open, close it, clear both flags. -/
def disconnect (s : UARTState) (ora : List Bool) : UARTState :=
  let s1 := { s with running := false }
  let s2 :=
    if s1.serialOpen then
      let r := send_command_direct s1 .disconnectCtl ora CMD_DISABLE
      { r.1 with serialOpen := false }
    else s1
  { s2 with connected := false, enabled := false }

/-- The retry loop of enable_control (source lines 207-215): up to n
attempts to send the enable literal, stopping at the first success. -/
def enable_retry : ℕ → UARTState → List Bool → UARTState × List Bool × Bool
  | 0, s, ora => (s, ora, false)
  | n + 1, s, ora =>
    match send_command_direct s .enableCtl ora CMD_ENABLE with
    | (s1, ora1, true) => (s1, ora1, true)
    | (s1, ora1, false) => enable_retry n s1 ora1

/-- enable_control() (source lines 190-227): reject when not connected;
otherwise try the enable literal up to 3 times; on success send the initial
leg-height command (its result is ignored) and set the enabled flag; the
return value is the success of the enable send alone. -/
def enable_control (s : UARTState) (ora : List Bool) : UARTState × Bool :=
  if s.connected then
    match enable_retry 3 s ora with
    | (s1, ora1, true) =>
      let r := send_command_direct s1 .enableCtl ora1 (format_leg_height LEG_HEIGHT)
      ({ r.1 with enabled := true }, true)
    | (s1, _, false) => (s1, false)
  else (s, false)

/-- disable_control() (source lines 229-248): zero the motion first, then
send the disable literal; clear the enabled flag only if that send worked. -/
def disable_control (s : UARTState) (ora : List Bool) : UARTState × Bool :=
  if s.connected then
    let r1 := send_command_direct s .disableCtl ora (format_velocity 0)
    let r2 := send_command_direct r1.1 .disableCtl r1.2.1 (format_yaw_rate 0)
    let r3 := send_command_direct r2.1 .disableCtl r2.2.1 CMD_DISABLE
    if r3.2.2 then ({ r3.1 with enabled := false }, true) else (r3.1, false)
  else (s, false)

/-- send_motion_command (source lines 250-290): rejected when not connected
or not enabled; otherwise enqueue velocity, yaw-rate, then the optional
leg-height and roll commands. -/
def send_motion_command (s : UARTState) (velocity yaw_rate : ℚ)
    (leg_height roll : Option ℚ) : UARTState :=
  if s.connected = false then s
  else if s.enabled = false then s
  else
    let s1 := enqueue s (format_velocity velocity)
    let s2 := enqueue s1 (format_yaw_rate yaw_rate)
    let s3 :=
      match leg_height with
      | some h => enqueue s2 (format_leg_height h)
      | none => s2
    match roll with
    | some r => enqueue s3 (format_roll r)
    | none => s3

/-- send_emergency_stop() (source lines 292-308): drain the queue, then send
zero velocity, zero yaw-rate and disable directly, then clear the enabled
flag as the final step. -/
def send_emergency_stop (s : UARTState) (ora : List Bool) : UARTState :=
  let s0 := { s with queue := [] }
  let r1 := send_command_direct s0 .estop ora (format_velocity 0)
  let r2 := send_command_direct r1.1 .estop r1.2.1 (format_yaw_rate 0)
  let r3 := send_command_direct r2.1 .estop r2.2.1 CMD_DISABLE
  { r3.1 with enabled := false }

/-- send_jump() (source lines 310-317). -/
def send_jump (s : UARTState) (ora : List Bool) : UARTState :=
  if s.connected && s.enabled then (send_command_direct s .jump ora CMD_JUMP).1
  else s

/-- send_roll() (source lines 319-331): guarded enqueue of a roll command. -/
def send_roll (s : UARTState) (roll : ℚ) : UARTState :=
  if s.connected && s.enabled then enqueue s (format_roll roll) else s

/-- send_pwm() (source lines 333-345): direct send, gated on connected. -/
def send_pwm (s : UARTState) (ora : List Bool) (duty : ℤ) : UARTState :=
  if s.connected then (send_command_direct s .pwm ora (format_pwm duty)).1
  else s

/-- One iteration of the sender worker _send_loop (source lines 347-363):
when the inter-send interval has elapsed, dequeue at most one command and
write it, stamping the send clock. -/
def send_loop_step (s : UARTState) (ora : List Bool) (now : ℚ) : UARTState :=
  if s.running = false then s
  else if now - s.lastCommandTime ≥ command_period then
    match s.queue with
    | [] => s
    | cmd :: rest =>
      let r := send_command_direct { s with queue := rest } .queued ora cmd
      { r.1 with lastCommandTime := now }
  else s

/-- _handle_connection_lost (source lines 522-534): clear the enabled flag,
then best-effort send zero velocity, zero yaw-rate and disable, swallowing
any error.  The connected flag is not touched. -/
def handle_connection_lost (s : UARTState) (ora : List Bool) : UARTState :=
  let s0 := { s with enabled := false }
  let r1 := send_command_direct s0 .watchdog ora (format_velocity 0)
  let r2 := send_command_direct r1.1 .watchdog r1.2.1 (format_yaw_rate 0)
  let r3 := send_command_direct r2.1 .watchdog r2.2.1 CMD_DISABLE
  r3.1

/-- One iteration of the watchdog worker _heartbeat_loop (source lines
365-422), after its fixed sleep: skip when not connected; send the heartbeat
ping; classify the read result (`resp = none` models a raised read error,
`some line` a completed readline); any non-empty stripped response resets
the miss bookkeeping, an empty one (or an error) increments it; finally, if
the time since the last confirmed response exceeds HEARTBEAT_TIMEOUT and the
miss counter has reached MAX_MISSED_HEARTBEATS, treat the connection as
lost.  (The optional health callback is an external effect.) -/
def heartbeat_iter (s : UARTState) (ora : List Bool) (now : ℚ)
    (resp : Option String) : UARTState :=
  if s.running = false then s
  else if s.connected = false then s
  else
    let r := send_command_direct s .heartbeatPing ora CMD_HEARTBEAT
    let s1 := r.1
    let s2 :=
      if s1.serialOpen = false then s1
      else
        match resp with
        | none => { s1 with missedHeartbeats := s1.missedHeartbeats + 1 }
        | some line =>
          let response := pyStrip line
          if response = "!" || pyStartsWith response "!" then
            { s1 with lastHeartbeatResponse := now, missedHeartbeats := 0 }
          else if pyStartsWith response "R=" || pyStartsWith response "OK"
              || response = "ERR" then
            { s1 with lastHeartbeatResponse := now, missedHeartbeats := 0 }
          else if response ≠ "" then
            { s1 with lastHeartbeatResponse := now, missedHeartbeats := 0 }
          else
            { s1 with missedHeartbeats := s1.missedHeartbeats + 1 }
    if now - s2.lastHeartbeatResponse > HEARTBEAT_TIMEOUT then
      if s2.missedHeartbeats ≥ MAX_MISSED_HEARTBEATS then
        handle_connection_lost s2 r.2.1
      else s2
    else s2

/-- _parse_feedback (source lines 453-488): strip the sigil, split on
commas, require at least four fields, convert them one at a time — a failed
conversion raises ValueError after the earlier fields were already written,
so the partial update is kept and the valid flag is not set.  On full
success the timestamp and the heartbeat bookkeeping are refreshed. -/
def parse_feedback (s : UARTState) (now : ℚ) (line : String) : UARTState :=
  match pySplit (String.mk (line.data.drop 1)) ',' with
  | d0 :: d1 :: d2 :: d3 :: _ =>
    match pyFloat d0 with
    | none => s
    | some v =>
      let fb1 := { s.feedback with velocity := v }
      match pyFloat d1 with
      | none => { s with feedback := fb1 }
      | some x =>
        let fb2 := { fb1 with position := x }
        match pyFloat d2 with
        | none => { s with feedback := fb2 }
        | some yw =>
          let fb3 := { fb2 with yaw := yw }
          match pyFloat d3 with
          | none => { s with feedback := fb3 }
          | some yr =>
            { s with
              feedback := { fb3 with yaw_rate := yr, timestamp := now, valid := true },
              lastHeartbeatResponse := now, missedHeartbeats := 0 }
  | _ => s

/-- One iteration of the receiver worker _receive_loop (source lines
424-451) that saw one complete line: telemetry lines (sigil F) go to the
feedback decoder; short acknowledgements also reset the miss bookkeeping;
anything else is dropped. -/
def receive_line (s : UARTState) (now : ℚ) (line0 : String) : UARTState :=
  if s.running = false then s
  else if s.connected = false then s
  else
    let line := pyStrip line0
    if pyStartsWith line "F" then parse_feedback s now line
    else if pyStartsWith line "OK" || line = "ERR" || line = "!" then
      { s with lastHeartbeatResponse := now, missedHeartbeats := 0 }
    else s

/-- get_connection_health (source lines 545-558). -/
structure ConnectionHealth where
  is_connected : Bool
  is_enabled : Bool
  missed_heartbeats : ℕ
  last_response_age : ℚ
  healthy : Bool
deriving DecidableEq

/-- get_connection_health (source lines 545-558): a snapshot; healthy is
missed_heartbeats == 0 and is_connected. -/
def get_connection_health (s : UARTState) (now : ℚ) : ConnectionHealth :=
  { is_connected := s.connected
    is_enabled := s.enabled
    missed_heartbeats := s.missedHeartbeats
    last_response_age := now - s.lastHeartbeatResponse
    healthy := decide (s.missedHeartbeats = 0) && s.connected }

/-- A public-API call or a worker step of one controller instance.  Each
direct-write path carries its own outcome oracle; worker steps and timed
calls carry the current clock value. -/
inductive Event where
  | connectOk (now : ℚ)
  | connectFail
  | disconnect (ora : List Bool)
  | enableControl (ora : List Bool)
  | disableControl (ora : List Bool)
  | sendMotion (velocity yaw_rate : ℚ) (leg_height roll : Option ℚ)
  | emergencyStop (ora : List Bool)
  | sendJump (ora : List Bool)
  | sendRoll (roll : ℚ)
  | sendPwm (ora : List Bool) (duty : ℤ)
  | senderStep (ora : List Bool) (now : ℚ)
  | heartbeatStep (ora : List Bool) (now : ℚ) (resp : Option String)
  | receiveStep (now : ℚ) (line : String)

/-- Interpret one event on the controller state. -/
def step (s : UARTState) : Event → UARTState
  | .connectOk now => connect_ok s now
  | .connectFail => connect_fail s
  | .disconnect ora => disconnect s ora
  | .enableControl ora => (enable_control s ora).1
  | .disableControl ora => (disable_control s ora).1
  | .sendMotion v y lh rl => send_motion_command s v y lh rl
  | .emergencyStop ora => send_emergency_stop s ora
  | .sendJump ora => send_jump s ora
  | .sendRoll rl => send_roll s rl
  | .sendPwm ora duty => send_pwm s ora duty
  | .senderStep ora now => send_loop_step s ora now
  | .heartbeatStep ora now resp => heartbeat_iter s ora now resp
  | .receiveStep now line => receive_line s now line

/-- Run an event sequence from the freshly constructed controller. -/
def run (evs : List Event) : UARTState := evs.foldl step {}

/-- A velocity or yaw-rate command, as written on the wire. -/
def isMotionCmd (c : String) : Bool :=
  pyStartsWith c CMD_VELOCITY || pyStartsWith c CMD_YAW_RATE

/-- The dispatch-level invariant claimed by the specification: every motion
command on the wire was written while the enabled flag was true, except on
the explicit emergency-stop path. -/
def dispatchOnlyWhileEnabled (s : UARTState) : Prop :=
  ∀ r ∈ s.wire, isMotionCmd r.cmd = true →
    r.enabledAtSend = true ∨ r.path = TxPath.estop

end UART

namespace Patrol

/-! Embedding of the mode framework (src/modes/base_mode.py) and the patrol
state machine (src/modes/patrol_mode.py).  The camera frame is modelled by
its width and height (the process entry check only inspects None-ness and
emptiness), the object detector output by an optional list of detection
records, and time by a rational clock passed to each call.  The
visualization overlay, logging and the terminal-bell sound effect are
external effects; the user alert callback is modelled by counting its
invocations. -/

/-- ModeState (base_mode.py lines 16-23). -/
inductive ModeState where
  | idle
  | running
  | searching
  | paused
  | error
  | completed
deriving DecidableEq

/-- PatrolState (patrol_mode.py lines 20-26). -/
inductive PState where
  | patrolling
  | rotating
  | alert
  | tracking
  | returning
deriving DecidableEq

/-- ModeOutput (base_mode.py lines 26-49); the opaque viz_frame payload is
external and omitted. -/
structure ModeOutput where
  velocity : ℚ := 0
  yaw_rate : ℚ := 0
  state : ModeState := .idle
  confidence : ℚ := 0
  message : String := ""
  emergency_stop : Bool := false
deriving DecidableEq

/-- Intruder (patrol_mode.py lines 63-71). -/
structure Intruder where
  bbox : ℤ × ℤ × ℤ × ℤ
  center_x : ℚ
  center_y : ℚ
  distance : ℚ
  confidence : ℚ
  timestamp : ℚ
deriving DecidableEq

/-- One detection produced by the external object detector (consumed at
patrol_mode.py lines 229-247: class name, confidence, bbox corners, depth). -/
structure DetectedObject where
  class_name : String
  confidence : ℚ
  bbox : ℤ × ℤ × ℤ × ℤ
  depth : ℚ
deriving DecidableEq

/-- PatrolConfig (patrol_mode.py lines 29-60); the sound/color fields drive
external effects only and are omitted. -/
structure PatrolConfig where
  patrol_velocity : ℚ := 3/10
  rotate_yaw_rate : ℚ := 1/2
  patrol_forward_time : ℚ := 5
  patrol_rotate_time : ℚ := 3
  detect_class : String := "person"
  min_confidence : ℚ := 1/2
  min_box_area : ℤ := 3000
  alert_distance : ℚ := 3
  alert_duration : ℚ := 3
  track_intruder : Bool := true
  tracking_distance : ℚ := 2
  tracking_gain : ℚ := 3/2
  max_track_time : ℚ := 10
deriving DecidableEq

/-- BaseMode control bound self.max_yaw_rate (base_mode.py line 71). -/
def max_yaw_rate : ℚ := 3/2

/-- The mutable state of a PatrolMode instance: the BaseMode fields
(_state, _enabled, _frame_count) plus the patrol fields (patrol_mode.py
lines 108-120).  alert_count counts firings of the alert path (the
registered callback and sound effect are external). -/
structure PatrolSt where
  mode_state : ModeState := .idle
  mode_enabled : Bool := false
  frame_count : ℕ := 0
  patrol_state : PState := .patrolling
  state_start_time : ℚ := 0
  patrol_cycle : ℕ := 0
  current_intruder : Option Intruder := none
  intruders_detected : List Intruder := []
  alert_start_time : Option ℚ := none
  track_start_time : Option ℚ := none
  alert_count : ℕ := 0
deriving DecidableEq

/-- np.clip(x, lo, hi). -/
def clipQ (x lo hi : ℚ) : ℚ := min hi (max lo x)

/-- _detect_intruder (patrol_mode.py lines 208-274): filter the detections
by class, confidence, box area and distance (a nonpositive depth reads as
infinite distance, which always fails the alert-distance test), and keep
the one maximizing confidence/(distance+0.1).  Centers are normalized to
[-1,1] against the frame size. -/
def detect_intruder (cfg : PatrolConfig) (fw fh : ℕ) (now : ℚ)
    (dets : List DetectedObject) : Option Intruder :=
  let best := dets.foldl
    (fun acc det =>
      if det.class_name ≠ cfg.detect_class then acc
      else if det.confidence < cfg.min_confidence then acc
      else
        let x1 := det.bbox.1
        let y1 := det.bbox.2.1
        let x2 := det.bbox.2.2.1
        let y2 := det.bbox.2.2.2
        if (x2 - x1) * (y2 - y1) < cfg.min_box_area then acc
        else if det.depth ≤ 0 then acc
        else if det.depth > cfg.alert_distance then acc
        else
          let score := det.confidence * (1 / (det.depth + 1/10))
          if score > acc.2 then
            let cx := ((x1 : ℚ) + (x2 : ℚ)) / 2
            let cy := ((y1 : ℚ) + (y2 : ℚ)) / 2
            (some { bbox := det.bbox
                    center_x := (cx - (fw : ℚ) / 2) / ((fw : ℚ) / 2)
                    center_y := (cy - (fh : ℚ) / 2) / ((fh : ℚ) / 2)
                    distance := det.depth
                    confidence := det.confidence
                    timestamp := now }, score)
          else acc)
    ((none : Option Intruder), (0 : ℚ))
  best.1

/-- _create_stop_output (patrol_mode.py lines 513-521): zero motion, the
current base-mode state, zero confidence. -/
def create_stop_output (s : PatrolSt) (msg : String) : ModeOutput :=
  { velocity := 0, yaw_rate := 0, state := s.mode_state, confidence := 0,
    message := msg }

/-- _trigger_alert (patrol_mode.py lines 276-294): record the intruder,
append it to the history, move to Alert, stamp the alert clock, fire the
alert callback and sound. -/
def trigger_alert (s : PatrolSt) (intr : Intruder) (now : ℚ) : PatrolSt :=
  { s with current_intruder := some intr
           intruders_detected := s.intruders_detected ++ [intr]
           patrol_state := .alert
           alert_start_time := some now
           alert_count := s.alert_count + 1 }

/-- _process_tracking (patrol_mode.py lines 339-385): leave for Returning on
timeout or a lost intruder; otherwise steer toward the intruder center with
a clipped proportional law and hold the tracking distance with a deadband. -/
def process_tracking (cfg : PatrolConfig) (s : PatrolSt)
    (intr : Option Intruder) (now : ℚ) : PatrolSt × ModeOutput :=
  if now - s.track_start_time.getD 0 > cfg.max_track_time then
    let s1 := { s with patrol_state := .returning, state_start_time := now }
    (s1, create_stop_output s1 "Tracking timeout")
  else
    match intr with
    | none =>
      let s1 := { s with patrol_state := .returning, state_start_time := now }
      (s1, create_stop_output s1 "Intruder lost")
    | some i =>
      let s1 := { s with current_intruder := some i }
      let yaw := clipQ (-i.center_x * cfg.tracking_gain) (-max_yaw_rate) max_yaw_rate
      let dist_err := i.distance - cfg.tracking_distance
      let vel :=
        if dist_err > 3/10 then min cfg.patrol_velocity (dist_err * (1/2))
        else if dist_err < -(3/10) then max (-(1/5)) (dist_err * (3/10))
        else 0
      (s1, { velocity := vel, yaw_rate := yaw, state := .running,
             confidence := i.confidence, message := "Tracking" })

/-- _process_alert (patrol_mode.py lines 304-337): after a 1 s pause hand a
still-visible intruder to tracking; once the alert duration expires fall to
Returning (intruder gone) or Tracking (still visible, tracking enabled);
otherwise hold still. -/
def process_alert (cfg : PatrolConfig) (s : PatrolSt)
    (intr : Option Intruder) (now : ℚ) : PatrolSt × ModeOutput :=
  let elapsed := now - s.alert_start_time.getD 0
  if cfg.track_intruder && intr.isSome && decide (elapsed > 1) then
    let s1 := { s with patrol_state := .tracking, track_start_time := some now }
    process_tracking cfg s1 intr now
  else
    let s2 :=
      if elapsed > cfg.alert_duration then
        match intr with
        | none => { s with patrol_state := .returning, state_start_time := now }
        | some _ =>
          if cfg.track_intruder then
            { s with patrol_state := .tracking, track_start_time := some now }
          else s
      else s
    (s2, { velocity := 0, yaw_rate := 0, state := .running, confidence := 1,
           message := "ALERT" })

/-- _process_patrolling, _process_rotating and _process_returning
(patrol_mode.py lines 387-447) as one fuel-indexed function (the source
recurses into the successor state after a transition; with nonnegative
configured durations at most one hop happens, so the fuel bound is never
reached from process).  Forward motion until the forward timer elapses,
then a timed rotation whose sign alternates with the parity of the cycle
counter; Returning rotates for a fixed 2 s grace and then resumes
patrolling, clearing the current intruder. -/
def process_motion (cfg : PatrolConfig) :
    ℕ → PState → PatrolSt → ℚ → PatrolSt × ModeOutput
  | 0, _, s, _ => (s, create_stop_output s "recursion limit")
  | fuel + 1, .patrolling, s, now =>
    if now - s.state_start_time > cfg.patrol_forward_time then
      let s1 := { s with patrol_state := .rotating, state_start_time := now,
                         patrol_cycle := s.patrol_cycle + 1 }
      process_motion cfg fuel .rotating s1 now
    else
      (s, { velocity := cfg.patrol_velocity, yaw_rate := 0, state := .running,
            confidence := 1, message := "Patrolling" })
  | fuel + 1, .rotating, s, now =>
    if now - s.state_start_time > cfg.patrol_rotate_time then
      let s1 := { s with patrol_state := .patrolling, state_start_time := now }
      process_motion cfg fuel .patrolling s1 now
    else
      let direction : ℚ := if s.patrol_cycle % 2 = 0 then 1 else -1
      (s, { velocity := 0, yaw_rate := cfg.rotate_yaw_rate * direction,
            state := .running, confidence := 1, message := "Rotating" })
  | fuel + 1, .returning, s, now =>
    if now - s.state_start_time < 2 then
      (s, { velocity := 0, yaw_rate := cfg.rotate_yaw_rate, state := .running,
            confidence := 4/5, message := "Returning to patrol" })
    else
      let s1 := { s with patrol_state := .patrolling, state_start_time := now,
                         current_intruder := none }
      process_motion cfg fuel .patrolling s1 now
  | _ + 1, _, s, _ => (s, create_stop_output s "")

/-- Fuel bound used by process; unreachable for nonnegative durations. -/
def PROCESS_FUEL : ℕ := 8

/-- process (patrol_mode.py lines 153-206): reject a disabled mode or a
missing/empty frame with a stop output; otherwise run detection, trigger an
alert whenever an intruder is found and the automaton is not already in
Alert or Tracking, then dispatch on the patrol sub-state.  The frame is
modelled by its (width, height); dets = none models a detector result of
None. -/
def process (cfg : PatrolConfig) (s : PatrolSt) (frame : Option (ℕ × ℕ))
    (dets : Option (List DetectedObject)) (now : ℚ) : PatrolSt × ModeOutput :=
  if s.mode_enabled = false then (s, create_stop_output s "Mode not enabled")
  else
    match frame with
    | none => (s, create_stop_output s "Invalid frame")
    | some (fw, fh) =>
      if fw * fh = 0 then (s, create_stop_output s "Invalid frame")
      else
        let s1 := { s with frame_count := s.frame_count + 1 }
        let intr :=
          match dets with
          | none => none
          | some l => detect_intruder cfg fw fh now l
        let s2 :=
          match intr with
          | some i =>
            if s1.patrol_state ≠ PState.alert ∧ s1.patrol_state ≠ PState.tracking
            then trigger_alert s1 i now
            else s1
          | none => s1
        match s2.patrol_state with
        | .alert => process_alert cfg s2 intr now
        | .tracking => process_tracking cfg s2 intr now
        | .returning => process_motion cfg PROCESS_FUEL .returning s2 now
        | .rotating => process_motion cfg PROCESS_FUEL .rotating s2 now
        | .patrolling => process_motion cfg PROCESS_FUEL .patrolling s2 now

/-- The public mode API (base_mode.py lines 83-105, patrol_mode.py lines
128-138): enable/disable/pause/resume, reset, and one process tick. -/
inductive MEvent where
  | enable
  | disable
  | pause
  | resume
  | reset (now : ℚ)
  | tick (frame : Option (ℕ × ℕ)) (dets : Option (List DetectedObject)) (now : ℚ)

/-- Interpret one mode API call.  reset keeps _enabled and _frame_count
(neither is touched by PatrolMode.reset). -/
def mstep (cfg : PatrolConfig) (s : PatrolSt) : MEvent → PatrolSt
  | .enable => { s with mode_enabled := true, mode_state := .running }
  | .disable => { s with mode_enabled := false, mode_state := .idle }
  | .pause =>
    if s.mode_state = ModeState.running then { s with mode_state := .paused } else s
  | .resume =>
    if s.mode_state = ModeState.paused then { s with mode_state := .running } else s
  | .reset now =>
    { s with mode_state := .idle, patrol_state := .patrolling,
             state_start_time := now, patrol_cycle := 0,
             current_intruder := none, intruders_detected := [],
             alert_start_time := none, track_start_time := none }
  | .tick frame dets now => (process cfg s frame dets now).1

/-- Run a mode API call sequence from a freshly constructed PatrolMode. -/
def mrun (cfg : PatrolConfig) (evs : List MEvent) : PatrolSt :=
  evs.foldl (mstep cfg) {}

/-- The default configuration PatrolConfig(). -/
def cfgDefault : PatrolConfig := {}

end Patrol

namespace UART

/-- Closed-port case of the direct write: nothing happens. -/
lemma scd_closed (s : UARTState) (p : TxPath) (ora : List Bool) (c : String)
    (h : s.serialOpen = false) : send_command_direct s p ora c = (s, ora, false) := by
  unfold send_command_direct
  rw [h]
  rfl

/-- Open-port, all-success-oracle case of the direct write. -/
lemma scd_nil_open (s : UARTState) (p : TxPath) (c : String)
    (h : s.serialOpen = true) :
    send_command_direct s p [] c =
      ({ s with wire := s.wire ++ [⟨c, s.enabled, p⟩] }, [], true) := by
  unfold send_command_direct
  rw [h]
  rfl

/-- Open-port, successful-write case of the direct write. -/
lemma scd_cons_true (s : UARTState) (p : TxPath) (rest : List Bool) (c : String)
    (h : s.serialOpen = true) :
    send_command_direct s p (true :: rest) c =
      ({ s with wire := s.wire ++ [⟨c, s.enabled, p⟩] }, rest, true) := by
  unfold send_command_direct
  rw [h]
  rfl

/-- Open-port, failed-write case of the direct write. -/
lemma scd_cons_false (s : UARTState) (p : TxPath) (rest : List Bool) (c : String)
    (h : s.serialOpen = true) :
    send_command_direct s p (false :: rest) c = (s, rest, false) := by
  unfold send_command_direct
  rw [h]
  rfl

@[simp] lemma scd_serialOpen (s : UARTState) (p : TxPath) (ora : List Bool)
    (c : String) : (send_command_direct s p ora c).1.serialOpen = s.serialOpen := by
  unfold send_command_direct
  split
  · cases ora with
    | nil => rfl
    | cons ok rest => cases ok <;> rfl
  · rfl

@[simp] lemma scd_connected (s : UARTState) (p : TxPath) (ora : List Bool)
    (c : String) : (send_command_direct s p ora c).1.connected = s.connected := by
  unfold send_command_direct
  split
  · cases ora with
    | nil => rfl
    | cons ok rest => cases ok <;> rfl
  · rfl

@[simp] lemma scd_enabled (s : UARTState) (p : TxPath) (ora : List Bool)
    (c : String) : (send_command_direct s p ora c).1.enabled = s.enabled := by
  unfold send_command_direct
  split
  · cases ora with
    | nil => rfl
    | cons ok rest => cases ok <;> rfl
  · rfl

@[simp] lemma scd_running (s : UARTState) (p : TxPath) (ora : List Bool)
    (c : String) : (send_command_direct s p ora c).1.running = s.running := by
  unfold send_command_direct
  split
  · cases ora with
    | nil => rfl
    | cons ok rest => cases ok <;> rfl
  · rfl

@[simp] lemma scd_queue (s : UARTState) (p : TxPath) (ora : List Bool)
    (c : String) : (send_command_direct s p ora c).1.queue = s.queue := by
  unfold send_command_direct
  split
  · cases ora with
    | nil => rfl
    | cons ok rest => cases ok <;> rfl
  · rfl

@[simp] lemma scd_lastCommandTime (s : UARTState) (p : TxPath) (ora : List Bool)
    (c : String) :
    (send_command_direct s p ora c).1.lastCommandTime = s.lastCommandTime := by
  unfold send_command_direct
  split
  · cases ora with
    | nil => rfl
    | cons ok rest => cases ok <;> rfl
  · rfl

@[simp] lemma scd_lastHeartbeatResponse (s : UARTState) (p : TxPath)
    (ora : List Bool) (c : String) :
    (send_command_direct s p ora c).1.lastHeartbeatResponse =
      s.lastHeartbeatResponse := by
  unfold send_command_direct
  split
  · cases ora with
    | nil => rfl
    | cons ok rest => cases ok <;> rfl
  · rfl

@[simp] lemma scd_missedHeartbeats (s : UARTState) (p : TxPath) (ora : List Bool)
    (c : String) :
    (send_command_direct s p ora c).1.missedHeartbeats = s.missedHeartbeats := by
  unfold send_command_direct
  split
  · cases ora with
    | nil => rfl
    | cons ok rest => cases ok <;> rfl
  · rfl

@[simp] lemma scd_feedback (s : UARTState) (p : TxPath) (ora : List Bool)
    (c : String) : (send_command_direct s p ora c).1.feedback = s.feedback := by
  unfold send_command_direct
  split
  · cases ora with
    | nil => rfl
    | cons ok rest => cases ok <;> rfl
  · rfl

@[simp] lemma scd_enqLog (s : UARTState) (p : TxPath) (ora : List Bool)
    (c : String) : (send_command_direct s p ora c).1.enqLog = s.enqLog := by
  unfold send_command_direct
  split
  · cases ora with
    | nil => rfl
    | cons ok rest => cases ok <;> rfl
  · rfl

/-- A direct write appends at most one record to the wire. -/
lemma scd_wire_sub (s : UARTState) (p : TxPath) (ora : List Bool) (c : String) :
    (send_command_direct s p ora c).1.wire = s.wire ∨
    (send_command_direct s p ora c).1.wire = s.wire ++ [⟨c, s.enabled, p⟩] := by
  unfold send_command_direct
  split
  · cases ora with
    | nil => right; rfl
    | cons ok rest =>
      cases ok with
      | false => left; rfl
      | true => right; rfl
  · left; rfl

end UART

/-- Truncation toward zero is the identity on integers. -/
lemma truncTowardZero_intCast (n : ℤ) : truncTowardZero (n : ℚ) = n := by
  unfold truncTowardZero
  split
  · exact Int.floor_intCast n
  · rw [← Int.cast_neg, Int.floor_intCast]
    ring

namespace UART

lemma format_velocity_eval (q : ℚ) (n : ℤ) (h : q * 1000 = (n : ℚ)) :
    format_velocity q = CMD_VELOCITY ++ toString n := by
  rw [format_velocity, h, truncTowardZero_intCast]

lemma format_yaw_rate_eval (q : ℚ) (n : ℤ) (h : q * 1000 = (n : ℚ)) :
    format_yaw_rate q = CMD_YAW_RATE ++ toString n := by
  rw [format_yaw_rate, h, truncTowardZero_intCast]

lemma format_leg_height_eval (q : ℚ) (n : ℤ) (h : q * 1000 = (n : ℚ)) :
    format_leg_height q = CMD_LEG_HEIGHT ++ toString n := by
  rw [format_leg_height, h, truncTowardZero_intCast]

lemma format_roll_eval (q : ℚ) (n : ℤ) (h : q * 1000 = (n : ℚ)) :
    format_roll q = CMD_ROLL ++ toString n := by
  rw [format_roll, h, truncTowardZero_intCast]

@[simp] lemma fv_zero : format_velocity 0 = "V0" := by
  rw [format_velocity_eval 0 0 (by norm_num)]
  decide

@[simp] lemma fy_zero : format_yaw_rate 0 = "Y0" := by
  rw [format_yaw_rate_eval 0 0 (by norm_num)]
  decide

lemma fv_03 : format_velocity (3/10) = "V300" := by
  rw [format_velocity_eval (3/10) 300 (by norm_num)]
  decide

lemma fy_01 : format_yaw_rate (1/10) = "Y100" := by
  rw [format_yaw_rate_eval (1/10) 100 (by norm_num)]
  decide

lemma fh_leg : format_leg_height LEG_HEIGHT = "H150" := by
  rw [LEG_HEIGHT, format_leg_height_eval (15/100) 150 (by norm_num)]
  decide

end UART

namespace UART

@[simp] lemma hcl_enabled (s : UARTState) (ora : List Bool) :
    (handle_connection_lost s ora).enabled = false := by
  unfold handle_connection_lost
  simp

@[simp] lemma hcl_connected (s : UARTState) (ora : List Bool) :
    (handle_connection_lost s ora).connected = s.connected := by
  unfold handle_connection_lost
  simp

@[simp] lemma hcl_enqLog (s : UARTState) (ora : List Bool) :
    (handle_connection_lost s ora).enqLog = s.enqLog := by
  unfold handle_connection_lost
  simp

@[simp] lemma hcl_queue (s : UARTState) (ora : List Bool) :
    (handle_connection_lost s ora).queue = s.queue := by
  unfold handle_connection_lost
  simp

lemma hb_enqLog (s : UARTState) (ora : List Bool) (now : ℚ) (resp : Option String) :
    (heartbeat_iter s ora now resp).enqLog = s.enqLog := by
  unfold heartbeat_iter
  cases resp with
  | none => repeat' split
            all_goals simp [apply_ite UARTState.enqLog]
  | some line => repeat' split
                 all_goals simp [apply_ite UARTState.enqLog]

lemma parse_feedback_enqLog (s : UARTState) (now : ℚ) (line : String) :
    (parse_feedback s now line).enqLog = s.enqLog := by
  unfold parse_feedback
  repeat' split
  all_goals rfl

lemma receive_line_enqLog (s : UARTState) (now : ℚ) (line : String) :
    (receive_line s now line).enqLog = s.enqLog := by
  unfold receive_line
  repeat' split
  all_goals simp [apply_ite UARTState.enqLog, parse_feedback_enqLog]

lemma enable_retry_enqLog (n : ℕ) (s : UARTState) (ora : List Bool) :
    (enable_retry n s ora).1.enqLog = s.enqLog := by
  induction n generalizing s ora with
  | zero => rfl
  | succ n ih =>
    unfold enable_retry
    split
    · next heq =>
      have h1 : (send_command_direct s .enableCtl ora CMD_ENABLE).1.enqLog = s.enqLog :=
        scd_enqLog ..
      rw [show (send_command_direct s .enableCtl ora CMD_ENABLE).1 = _ from
        congrArg Prod.fst heq] at h1
      exact h1
    · next heq =>
      have h1 : (send_command_direct s .enableCtl ora CMD_ENABLE).1.enqLog = s.enqLog :=
        scd_enqLog ..
      rw [show (send_command_direct s .enableCtl ora CMD_ENABLE).1 = _ from
        congrArg Prod.fst heq] at h1
      rw [ih, h1]

lemma enable_control_enqLog (s : UARTState) (ora : List Bool) :
    (enable_control s ora).1.enqLog = s.enqLog := by
  unfold enable_control
  split
  · split
    · next s1 ora1 heq =>
      have h1 : (enable_retry 3 s ora).1.enqLog = s.enqLog := enable_retry_enqLog ..
      rw [heq] at h1
      simpa using h1
    · next s1 ora1 heq =>
      have h1 : (enable_retry 3 s ora).1.enqLog = s.enqLog := enable_retry_enqLog ..
      rw [heq] at h1
      simpa using h1
  · rfl

lemma disable_control_enqLog (s : UARTState) (ora : List Bool) :
    (disable_control s ora).1.enqLog = s.enqLog := by
  unfold disable_control
  repeat' split
  all_goals simp [apply_ite (fun p : UARTState × Bool => p.1.enqLog)]

lemma ses_enqLog (s : UARTState) (ora : List Bool) :
    (send_emergency_stop s ora).enqLog = s.enqLog := by
  unfold send_emergency_stop
  simp

@[simp] lemma ses_enabled (s : UARTState) (ora : List Bool) :
    (send_emergency_stop s ora).enabled = false := by
  unfold send_emergency_stop
  simp

lemma send_jump_enqLog (s : UARTState) (ora : List Bool) :
    (send_jump s ora).enqLog = s.enqLog := by
  unfold send_jump
  split
  · simp
  · rfl

lemma send_pwm_enqLog (s : UARTState) (ora : List Bool) (duty : ℤ) :
    (send_pwm s ora duty).enqLog = s.enqLog := by
  unfold send_pwm
  split
  · simp
  · rfl

lemma send_loop_step_enqLog (s : UARTState) (ora : List Bool) (now : ℚ) :
    (send_loop_step s ora now).enqLog = s.enqLog := by
  unfold send_loop_step
  repeat' split
  all_goals simp

lemma disconnect_enqLog (s : UARTState) (ora : List Bool) :
    (disconnect s ora).enqLog = s.enqLog := by
  unfold disconnect
  simp [apply_ite UARTState.enqLog]

end UART

namespace UART

@[simp] lemma enqueue_connected (s : UARTState) (c : String) :
    (enqueue s c).connected = s.connected := rfl

@[simp] lemma enqueue_enabled (s : UARTState) (c : String) :
    (enqueue s c).enabled = s.enabled := rfl

/-- A queue insertion made while connected and enabled. -/
def goodEnq (r : EnqRec) : Prop := r.connectedAtEnq = true ∧ r.enabledAtEnq = true

lemma enqueue_enq_good (s : UARTState) (c : String) (hc : s.connected = true)
    (he : s.enabled = true) (h : ∀ r ∈ s.enqLog, goodEnq r) :
    ∀ r ∈ (enqueue s c).enqLog, goodEnq r := by
  intro r hr
  rw [enqueue] at hr
  simp only [List.mem_append, List.mem_singleton] at hr
  rcases hr with hr | hr
  · exact h r hr
  · subst hr
    exact ⟨hc, he⟩

lemma send_motion_enq_good (s : UARTState) (v y : ℚ) (lh rl : Option ℚ)
    (h : ∀ r ∈ s.enqLog, goodEnq r) :
    ∀ r ∈ (send_motion_command s v y lh rl).enqLog, goodEnq r := by
  unfold send_motion_command
  split
  · exact h
  · split
    · exact h
    · next hc he =>
      rw [Bool.not_eq_false] at hc he
      cases lh <;> cases rl <;> simp only []
      · exact enqueue_enq_good _ _ (by simp [hc]) (by simp [he])
          (enqueue_enq_good _ _ hc he h)
      · exact enqueue_enq_good _ _ (by simp [hc]) (by simp [he])
          (enqueue_enq_good _ _ (by simp [hc]) (by simp [he])
            (enqueue_enq_good _ _ hc he h))
      · exact enqueue_enq_good _ _ (by simp [hc]) (by simp [he])
          (enqueue_enq_good _ _ (by simp [hc]) (by simp [he])
            (enqueue_enq_good _ _ hc he h))
      · exact enqueue_enq_good _ _ (by simp [hc]) (by simp [he])
          (enqueue_enq_good _ _ (by simp [hc]) (by simp [he])
            (enqueue_enq_good _ _ (by simp [hc]) (by simp [he])
              (enqueue_enq_good _ _ hc he h)))

lemma send_roll_enq_good (s : UARTState) (rl : ℚ)
    (h : ∀ r ∈ s.enqLog, goodEnq r) :
    ∀ r ∈ (send_roll s rl).enqLog, goodEnq r := by
  unfold send_roll
  split
  · next hce =>
    rw [Bool.and_eq_true] at hce
    exact enqueue_enq_good _ _ hce.1 hce.2 h
  · exact h

lemma step_enq_good (s : UARTState) (e : Event)
    (h : ∀ r ∈ s.enqLog, goodEnq r) : ∀ r ∈ (step s e).enqLog, goodEnq r := by
  cases e with
  | connectOk now => exact h
  | connectFail => exact h
  | disconnect ora => rw [step, disconnect_enqLog]; exact h
  | enableControl ora => rw [step, enable_control_enqLog]; exact h
  | disableControl ora => rw [step, disable_control_enqLog]; exact h
  | sendMotion v y lh rl => exact send_motion_enq_good s v y lh rl h
  | emergencyStop ora => rw [step, ses_enqLog]; exact h
  | sendJump ora => rw [step, send_jump_enqLog]; exact h
  | sendRoll rl => exact send_roll_enq_good s rl h
  | sendPwm ora duty => rw [step, send_pwm_enqLog]; exact h
  | senderStep ora now => rw [step, send_loop_step_enqLog]; exact h
  | heartbeatStep ora now resp => rw [step, hb_enqLog]; exact h
  | receiveStep now line => rw [step, receive_line_enqLog]; exact h

lemma foldl_enq_good (evs : List Event) (s : UARTState)
    (h : ∀ r ∈ s.enqLog, goodEnq r) :
    ∀ r ∈ (evs.foldl step s).enqLog, goodEnq r := by
  induction evs generalizing s with
  | nil => exact h
  | cons e rest ih => exact ih (step s e) (step_enq_good s e h)

end UART

namespace UART

/-- A run in which the driver connects, enables, queues one motion pair,
then disables while the pair is still queued, after which the sender worker
wakes up and drains one command. -/
def C1trace : List Event :=
  [Event.connectOk 0, Event.enableControl [],
   Event.sendMotion (3/10) (1/10) none none,
   Event.disableControl [], Event.senderStep [] 1]

lemma C1run_wire : (run C1trace).wire =
    [⟨CMD_ENABLE, false, .enableCtl⟩, ⟨"H150", false, .enableCtl⟩,
     ⟨"V0", true, .disableCtl⟩, ⟨"Y0", true, .disableCtl⟩,
     ⟨CMD_DISABLE, true, .disableCtl⟩, ⟨"V300", false, .queued⟩] := by
  norm_num [C1trace, run, step, connect_ok, enable_control, enable_retry,
    send_command_direct, send_motion_command, enqueue, disable_control,
    send_loop_step, command_period, fv_03, fy_01, fh_leg]

end UART

namespace UART

/-- C1 (counterexample).  The claimed invariant — a velocity or yaw-rate
command reaches the wire only while the enabled flag is true, the explicit
emergency-stop path excepted — is false: after disable_control revokes
motion authority, the sender worker still drains the queued V300 command
and writes it with the enabled flag false, on the queued path. -/
theorem C1_counterexample : ¬ dispatchOnlyWhileEnabled (run C1trace) := by
  intro hinv
  have hmem : (⟨"V300", false, TxPath.queued⟩ : TxRec) ∈ (run C1trace).wire := by
    rw [C1run_wire]
    decide
  rcases hinv _ hmem (by decide) with h | h
  · exact Bool.false_ne_true h
  · exact absurd h (by decide)

/-- C1 (amended).  What the code does guarantee: a motion command is only
ever ENQUEUED while both the connected and the enabled flags are true (the
sender worker then drains the queue without rechecking the flag), and the
explicit emergency-stop path always leaves the enabled flag false when it
returns. -/
theorem C1_amended_enqueue_gating (evs : List Event) :
    (∀ r ∈ (run evs).enqLog, goodEnq r) ∧
    (∀ ora : List Bool, (run (evs ++ [Event.emergencyStop ora])).enabled = false) := by
  constructor
  · exact foldl_enq_good evs {} (by intro r hr; exact absurd hr (by simp))
  · intro ora
    simp [run, List.foldl_append, step]

/-- Witness for C1: the amended guarantee applied to the empty history and
the all-success oracle. -/
theorem C1_witness : (run ([] ++ [Event.emergencyStop []])).enabled = false :=
  (C1_amended_enqueue_gating []).2 []

end UART

namespace UART

/-- With the port open and a healthy write path, the connection-lost handler
clears the enabled flag and puts V0, Y0, E0 on the wire, in that order. -/
lemma hcl_nil_eval (s : UARTState) (h : s.serialOpen = true) :
    handle_connection_lost s [] =
      { s with enabled := false,
               wire := s.wire ++
                 [⟨"V0", false, .watchdog⟩, ⟨"Y0", false, .watchdog⟩,
                  ⟨CMD_DISABLE, false, .watchdog⟩] } := by
  unfold handle_connection_lost
  simp [scd_nil_open, h]

/-- C2: in the watchdog loop, once the time since the last confirmed
response exceeds HEARTBEAT_TIMEOUT and the missed-heartbeat counter has
reached MAX_MISSED_HEARTBEATS, the controller clears its enabled flag
(whatever the write outcomes), leaves the connected flag unchanged, and —
when the writes go through — transmits zero velocity, zero yaw-rate and
disable in that order after its heartbeat ping. -/
theorem C2_watchdog_link_lost (s : UARTState) (ora : List Bool) (now : ℚ)
    (hrun : s.running = true) (hconn : s.connected = true)
    (hopen : s.serialOpen = true)
    (htime : now - s.lastHeartbeatResponse > HEARTBEAT_TIMEOUT)
    (hmiss : MAX_MISSED_HEARTBEATS ≤ s.missedHeartbeats + 1) :
    (heartbeat_iter s ora now (some "")).enabled = false ∧
    (heartbeat_iter s ora now (some "")).connected = s.connected ∧
    (ora = [] →
      (heartbeat_iter s ora now (some "")).wire =
        s.wire ++ [⟨CMD_HEARTBEAT, s.enabled, .heartbeatPing⟩,
          ⟨"V0", false, .watchdog⟩, ⟨"Y0", false, .watchdog⟩,
          ⟨CMD_DISABLE, false, .watchdog⟩]) := by
  have e1 : pyStrip "" = "" := by decide
  have e2 : pyStartsWith "" "!" = false := by decide
  have e3 : pyStartsWith "" "R=" = false := by decide
  have e4 : pyStartsWith "" "OK" = false := by decide
  have e5 : ¬("" = "!") := by decide
  have e6 : ¬("" = "ERR") := by decide
  refine ⟨?_, ?_, ?_⟩
  · unfold heartbeat_iter
    simp [hrun, hconn, hopen, e1, e2, e3, e4, e5, e6, htime, hmiss]
  · unfold heartbeat_iter
    simp [hrun, hconn, hopen, e1, e2, e3, e4, e5, e6, htime, hmiss]
  · intro hora
    subst hora
    unfold heartbeat_iter
    simp [hrun, hconn, hopen, e1, e2, e3, e4, e5, e6, htime, hmiss,
      scd_nil_open, hcl_nil_eval]

/-- Concrete controller state for the C2 witness: connected and enabled,
with two heartbeats already missed and a stale response clock. -/
def C2state : UARTState :=
  { serialOpen := true, connected := true, enabled := true, running := true,
    missedHeartbeats := 2 }

/-- Witness for C2: at time 2 s with the last response at 0 s and a third
empty heartbeat read, the controller disables itself, stays marked
connected, and the {V0, Y0, E0} sequence follows the ping on the wire. -/
theorem C2_witness :
    (heartbeat_iter C2state [] 2 (some "")).enabled = false ∧
    (heartbeat_iter C2state [] 2 (some "")).connected = true ∧
    (heartbeat_iter C2state [] 2 (some "")).wire =
      [⟨CMD_HEARTBEAT, true, .heartbeatPing⟩, ⟨"V0", false, .watchdog⟩,
       ⟨"Y0", false, .watchdog⟩, ⟨CMD_DISABLE, false, .watchdog⟩] := by
  have h := C2_watchdog_link_lost C2state [] 2 rfl rfl rfl
    (by norm_num [C2state, HEARTBEAT_TIMEOUT])
    (by norm_num [C2state, MAX_MISSED_HEARTBEATS])
  exact ⟨h.1, h.2.1, h.2.2 rfl⟩

end UART

namespace UART

/-- C3: for every prior state, send_emergency_stop leaves the outbound queue
empty and the enabled flag false (whatever the link condition and write
outcomes), and — whenever the link object is open so that writes can happen
at all, with a healthy write path — transmits zero velocity, zero yaw-rate
and disable directly, in exactly that order, bypassing the queue (the estop
path tag marks direct writes). -/
theorem C3_emergency_stop (s : UARTState) (ora : List Bool) :
    (send_emergency_stop s ora).queue = [] ∧
    (send_emergency_stop s ora).enabled = false ∧
    (s.serialOpen = true → ora = [] →
      (send_emergency_stop s ora).wire =
        s.wire ++ [⟨"V0", s.enabled, .estop⟩, ⟨"Y0", s.enabled, .estop⟩,
          ⟨CMD_DISABLE, s.enabled, .estop⟩]) := by
  refine ⟨?_, ses_enabled s ora, ?_⟩
  · unfold send_emergency_stop
    simp
  · intro hopen hora
    subst hora
    unfold send_emergency_stop
    simp [scd_nil_open, hopen]

/-- Concrete controller state for the C3 witness: enabled, link open, two
stale commands still queued. -/
def C3state : UARTState :=
  { serialOpen := true, connected := true, enabled := true,
    queue := ["V100", "Y200"] }

/-- Witness for C3: from a state with a non-empty queue, the emergency stop
empties the queue, disables the controller, and writes V0, Y0, E0. -/
theorem C3_witness :
    (send_emergency_stop C3state []).queue = [] ∧
    (send_emergency_stop C3state []).enabled = false ∧
    (send_emergency_stop C3state []).wire =
      [⟨"V0", true, .estop⟩, ⟨"Y0", true, .estop⟩, ⟨CMD_DISABLE, true, .estop⟩] := by
  have h := C3_emergency_stop C3state []
  exact ⟨h.1, h.2.1, h.2.2 rfl rfl⟩

lemma fy_neg01 : format_yaw_rate (-(1/10)) = "Y-100" := by
  rw [format_yaw_rate_eval (-(1/10)) (-100) (by norm_num)]
  decide

lemma fr_005 : format_roll (1/20) = "R50" := by
  rw [format_roll_eval (1/20) 50 (by norm_num)]
  decide

/-- C4: send_motion_command is a pure no-op (state unchanged, nothing
queued) when not connected or not enabled; otherwise it appends exactly the
formatted velocity command, then the yaw-rate command, then the optional
leg-height and roll commands to the queue, and touches nothing else. -/
theorem C4_send_motion_command (s : UARTState) (v y : ℚ) (lh rl : Option ℚ) :
    (s.connected = false ∨ s.enabled = false →
      send_motion_command s v y lh rl = s) ∧
    (s.connected = true → s.enabled = true →
      send_motion_command s v y lh rl =
        { s with
          queue := s.queue ++ [format_velocity v, format_yaw_rate y] ++
            (match lh with | some h => [format_leg_height h] | none => []) ++
            (match rl with | some r => [format_roll r] | none => []),
          enqLog := s.enqLog ++
            [⟨format_velocity v, true, true⟩, ⟨format_yaw_rate y, true, true⟩] ++
            (match lh with | some h => [⟨format_leg_height h, true, true⟩] | none => []) ++
            (match rl with | some r => [⟨format_roll r, true, true⟩] | none => []) }) := by
  constructor
  · intro h
    unfold send_motion_command
    rcases h with h | h
    · rw [if_pos h]
    · by_cases hc : s.connected = false
      · rw [if_pos hc]
      · rw [if_neg hc, if_pos h]
  · intro hc he
    unfold send_motion_command
    rw [if_neg (by simp [hc]), if_neg (by simp [he])]
    cases lh <;> cases rl <;> simp [enqueue, hc, he]

/-- Concrete controller state for the C4 witness: connected and enabled. -/
def C4state : UARTState := { connected := true, enabled := true }

/-- Witness for C4: with velocity 0.3 m/s, yaw-rate −0.1 rad/s, no
leg-height and roll 0.05 rad, exactly V300, Y-100, R50 are queued in that
order. -/
theorem C4_witness :
    (send_motion_command C4state (3/10) (-(1/10)) none (some (1/20))).queue =
      ["V300", "Y-100", "R50"] := by
  have h := (C4_send_motion_command C4state (3/10) (-(1/10)) none (some (1/20))).2 rfl rfl
  rw [h]
  simp only [C4state]
  simp [fv_03]
  constructor
  · rw [show (-10⁻¹ : ℚ) = (-(1/10) : ℚ) from by norm_num]
    exact fy_neg01
  · rw [show (20⁻¹ : ℚ) = ((1/20) : ℚ) from by norm_num]
    exact fr_005

end UART

namespace UART

lemma pf_050 : pyFloat "0.50" = some (1/2) := by
  rw [pyFloat, show pyFloatParts "0.50" = some (false, 0, 50, 2) from by decide]
  norm_num

lemma pf_100 : pyFloat "1.00" = some 1 := by
  rw [pyFloat, show pyFloatParts "1.00" = some (false, 1, 0, 2) from by decide]
  norm_num

lemma pf_078 : pyFloat "0.78" = some (39/50) := by
  rw [pyFloat, show pyFloatParts "0.78" = some (false, 0, 78, 2) from by decide]
  norm_num

lemma pf_010 : pyFloat "0.10" = some (1/10) := by
  rw [pyFloat, show pyFloatParts "0.10" = some (false, 0, 10, 2) from by decide]
  norm_num

/-- C5: the ×1000 truncating fixed-point encoding (the newline terminator is
added by the byte layer, source line 575): velocity 0.8 m/s encodes to V800,
yaw-rate −0.3 rad/s to Y-300; and the telemetry line F0.50,1.00,0.78,0.10
decodes — from any prior state — to a RobotFeedback with velocity 0.50,
position 1.00, yaw 0.78, yaw-rate 0.10 and the valid flag set. -/
theorem C5_encoding_roundtrip :
    format_velocity (8/10) = "V800" ∧
    format_yaw_rate (-(3/10)) = "Y-300" ∧
    (∀ q : ℚ, format_velocity q =
      CMD_VELOCITY ++ toString (truncTowardZero (q * 1000))) ∧
    (∀ (s : UARTState) (t : ℚ),
      (parse_feedback s t "F0.50,1.00,0.78,0.10").feedback =
        { velocity := 1/2, position := 1, yaw := 39/50, yaw_rate := 1/10,
          timestamp := t, valid := true }) := by
  refine ⟨?_, ?_, fun q => rfl, ?_⟩
  · rw [format_velocity_eval (8/10) 800 (by norm_num)]
    decide
  · rw [format_yaw_rate_eval (-(3/10)) (-300) (by norm_num)]
    decide
  · intro s t
    unfold parse_feedback
    rw [show pySplit (String.mk ("F0.50,1.00,0.78,0.10".data.drop 1)) ',' =
      ["0.50", "1.00", "0.78", "0.10"] from by decide]
    simp [pf_050, pf_100, pf_078, pf_010]

end UART

namespace UART

/-- Concrete controller state for C6: connected, link open, not enabled. -/
def C6state : UARTState := { serialOpen := true, connected := true }

/-- C6 (counterexample).  The claim that the controller considers itself
enabled only after the leg-height send succeeds is false: with the enable
write succeeding and the leg-height write failing, enable_control still
returns success and sets the enabled flag, and no leg-height command is on
the wire. -/
theorem C6_counterexample :
    (enable_control C6state [true, false]).2 = true ∧
    (enable_control C6state [true, false]).1.enabled = true ∧
    (∀ r ∈ (enable_control C6state [true, false]).1.wire,
      r.cmd ≠ format_leg_height LEG_HEIGHT) := by
  have hev : enable_control C6state [true, false] =
      ({ C6state with wire := [⟨CMD_ENABLE, false, .enableCtl⟩],
                      enabled := true }, true) := by
    simp [enable_control, enable_retry, scd_cons_true, scd_cons_false, C6state]
  refine ⟨by rw [hev], by rw [hev], ?_⟩
  intro r hr
  rw [hev] at hr
  simp at hr
  subst hr
  rw [fh_leg]
  decide

/-- C6 (amended).  enable_control sends the enable literal with up to 3
attempts: if all three fail it returns false with the enabled flag and the
wire unchanged; as soon as one succeeds it sends the configured leg-height
command and sets the enabled flag REGARDLESS of whether that leg-height
write succeeds (its result is discarded), returning the success of the
enable send alone. -/
theorem C6_amended_enable_control (s : UARTState) (rest : List Bool)
    (hconn : s.connected = true) (hopen : s.serialOpen = true) :
    ((enable_control s ([false, false, false] ++ rest)).2 = false ∧
     (enable_control s ([false, false, false] ++ rest)).1.enabled = s.enabled ∧
     (enable_control s ([false, false, false] ++ rest)).1.wire = s.wire) ∧
    ((enable_control s (true :: rest)).2 = true ∧
     (enable_control s (true :: rest)).1.enabled = true ∧
     ∃ hsent : Bool,
       (enable_control s (true :: rest)).1.wire =
         s.wire ++ [⟨CMD_ENABLE, s.enabled, .enableCtl⟩] ++
           (if hsent then [⟨format_leg_height LEG_HEIGHT, s.enabled, .enableCtl⟩]
            else [])) := by
  constructor
  · simp [enable_control, enable_retry, scd_cons_false, hconn, hopen]
  · cases rest with
    | nil =>
      refine ⟨?_, ?_, true, ?_⟩ <;>
        simp [enable_control, enable_retry, scd_cons_true, scd_nil_open, hconn, hopen]
    | cons b rest2 =>
      cases b with
      | true =>
        refine ⟨?_, ?_, true, ?_⟩ <;>
          simp [enable_control, enable_retry, scd_cons_true, hconn, hopen]
      | false =>
        refine ⟨?_, ?_, false, ?_⟩ <;>
          simp [enable_control, enable_retry, scd_cons_true, scd_cons_false, hconn, hopen]

/-- Witness for C6: three failed enable writes leave the controller
unenabled with a clean wire and a false return; a first-try success enables
it. -/
theorem C6_witness :
    (enable_control C6state ([false, false, false] ++ [])).2 = false ∧
    (enable_control C6state ([false, false, false] ++ [])).1.wire = [] ∧
    (enable_control C6state (true :: [])).1.enabled = true := by
  have h := C6_amended_enable_control C6state [] rfl rfl
  exact ⟨h.1.1, h.1.2.2, h.2.2.1⟩

end UART

namespace Patrol

@[simp] lemma trigger_alert_mode_state (s : PatrolSt) (i : Intruder) (now : ℚ) :
    (trigger_alert s i now).mode_state = s.mode_state := rfl

@[simp] lemma trigger_alert_mode_enabled (s : PatrolSt) (i : Intruder) (now : ℚ) :
    (trigger_alert s i now).mode_enabled = s.mode_enabled := rfl

@[simp] lemma process_tracking_mode_state (cfg : PatrolConfig) (s : PatrolSt)
    (intr : Option Intruder) (now : ℚ) :
    (process_tracking cfg s intr now).1.mode_state = s.mode_state := by
  unfold process_tracking
  repeat' split
  all_goals rfl

@[simp] lemma process_tracking_mode_enabled (cfg : PatrolConfig) (s : PatrolSt)
    (intr : Option Intruder) (now : ℚ) :
    (process_tracking cfg s intr now).1.mode_enabled = s.mode_enabled := by
  unfold process_tracking
  repeat' split
  all_goals rfl

@[simp] lemma process_tracking_alert_count (cfg : PatrolConfig) (s : PatrolSt)
    (intr : Option Intruder) (now : ℚ) :
    (process_tracking cfg s intr now).1.alert_count = s.alert_count := by
  unfold process_tracking
  repeat' split
  all_goals rfl

@[simp] lemma process_alert_mode_state (cfg : PatrolConfig) (s : PatrolSt)
    (intr : Option Intruder) (now : ℚ) :
    (process_alert cfg s intr now).1.mode_state = s.mode_state := by
  simp only [process_alert]
  repeat' split
  all_goals simp

@[simp] lemma process_alert_mode_enabled (cfg : PatrolConfig) (s : PatrolSt)
    (intr : Option Intruder) (now : ℚ) :
    (process_alert cfg s intr now).1.mode_enabled = s.mode_enabled := by
  simp only [process_alert]
  repeat' split
  all_goals simp

@[simp] lemma process_alert_alert_count (cfg : PatrolConfig) (s : PatrolSt)
    (intr : Option Intruder) (now : ℚ) :
    (process_alert cfg s intr now).1.alert_count = s.alert_count := by
  simp only [process_alert]
  repeat' split
  all_goals simp

@[simp] lemma process_motion_mode_state (cfg : PatrolConfig) (fuel : ℕ)
    (k : PState) (s : PatrolSt) (now : ℚ) :
    (process_motion cfg fuel k s now).1.mode_state = s.mode_state := by
  induction fuel generalizing k s with
  | zero => rfl
  | succ n ih =>
    cases k <;> unfold process_motion <;> (try rfl) <;> split
    case patrolling.isTrue => exact ih ..
    case patrolling.isFalse => rfl
    case rotating.isTrue => exact ih ..
    case rotating.isFalse => rfl
    case returning.isTrue => rfl
    case returning.isFalse => exact ih ..

@[simp] lemma process_motion_mode_enabled (cfg : PatrolConfig) (fuel : ℕ)
    (k : PState) (s : PatrolSt) (now : ℚ) :
    (process_motion cfg fuel k s now).1.mode_enabled = s.mode_enabled := by
  induction fuel generalizing k s with
  | zero => rfl
  | succ n ih =>
    cases k <;> unfold process_motion <;> (try rfl) <;> split
    case patrolling.isTrue => exact ih ..
    case patrolling.isFalse => rfl
    case rotating.isTrue => exact ih ..
    case rotating.isFalse => rfl
    case returning.isTrue => rfl
    case returning.isFalse => exact ih ..

@[simp] lemma process_motion_alert_count (cfg : PatrolConfig) (fuel : ℕ)
    (k : PState) (s : PatrolSt) (now : ℚ) :
    (process_motion cfg fuel k s now).1.alert_count = s.alert_count := by
  induction fuel generalizing k s with
  | zero => rfl
  | succ n ih =>
    cases k <;> unfold process_motion <;> (try rfl) <;> split
    case patrolling.isTrue => exact ih ..
    case patrolling.isFalse => rfl
    case rotating.isTrue => exact ih ..
    case rotating.isFalse => rfl
    case returning.isTrue => rfl
    case returning.isFalse => exact ih ..

lemma process_mode_state (cfg : PatrolConfig) (s : PatrolSt)
    (frame : Option (ℕ × ℕ)) (dets : Option (List DetectedObject)) (now : ℚ) :
    (process cfg s frame dets now).1.mode_state = s.mode_state := by
  simp only [process]
  repeat' split
  all_goals simp

lemma process_mode_enabled (cfg : PatrolConfig) (s : PatrolSt)
    (frame : Option (ℕ × ℕ)) (dets : Option (List DetectedObject)) (now : ℚ) :
    (process cfg s frame dets now).1.mode_enabled = s.mode_enabled := by
  simp only [process]
  repeat' split
  all_goals simp

end Patrol

namespace Patrol

/-- The BaseMode invariant: a disabled mode sits in the Idle state. -/
def ModeInv (s : PatrolSt) : Prop :=
  s.mode_enabled = false → s.mode_state = ModeState.idle

lemma mstep_inv (cfg : PatrolConfig) (s : PatrolSt) (e : MEvent)
    (h : ModeInv s) : ModeInv (mstep cfg s e) := by
  cases e with
  | enable => intro hx; cases hx
  | disable => intro _; rfl
  | pause =>
    intro hx
    simp only [mstep] at hx ⊢
    split at hx
    · next hrun =>
      simp only at hx
      rw [h hx] at hrun
      cases hrun
    · next hrun =>
      rw [if_neg hrun]
      exact h hx
  | resume =>
    intro hx
    simp only [mstep] at hx ⊢
    split at hx
    · next hrun =>
      simp only at hx
      rw [h hx] at hrun
      cases hrun
    · next hrun =>
      rw [if_neg hrun]
      exact h hx
  | reset now => intro _; rfl
  | tick frame dets now =>
    intro hx
    simp only [mstep] at hx ⊢
    rw [process_mode_enabled] at hx
    rw [process_mode_state]
    exact h hx

lemma foldl_mode_inv (cfg : PatrolConfig) (evs : List MEvent) (s : PatrolSt)
    (h : ModeInv s) : ModeInv (evs.foldl (mstep cfg) s) := by
  induction evs generalizing s with
  | nil => exact h
  | cons e rest ih => exact ih (mstep cfg s e) (mstep_inv cfg s e h)

lemma mrun_inv (cfg : PatrolConfig) (evs : List MEvent) : ModeInv (mrun cfg evs) :=
  foldl_mode_inv cfg evs {} (fun _ => rfl)

end Patrol

namespace Patrol

/-- C9: process is total by construction (the embedding is a function), and
for every reachable mode state it degrades safely: a disabled mode yields
the zero-motion stop output carrying the Idle state, and a missing or empty
color frame yields a zero-motion stop output. -/
theorem C9_process_safe (cfg : PatrolConfig) (evs : List MEvent)
    (frame : Option (ℕ × ℕ)) (dets : Option (List DetectedObject)) (now : ℚ) :
    ((mrun cfg evs).mode_enabled = false →
      (process cfg (mrun cfg evs) frame dets now).2 =
        { velocity := 0, yaw_rate := 0, state := ModeState.idle, confidence := 0,
          message := "Mode not enabled" }) ∧
    ((frame = none ∨ ∃ fw fh, frame = some (fw, fh) ∧ fw * fh = 0) →
      (process cfg (mrun cfg evs) frame dets now).2.velocity = 0 ∧
      (process cfg (mrun cfg evs) frame dets now).2.yaw_rate = 0) := by
  constructor
  · intro hdis
    have hidle := mrun_inv cfg evs hdis
    unfold process
    rw [if_pos hdis]
    rw [create_stop_output, hidle]
  · intro hfr
    by_cases hdis : (mrun cfg evs).mode_enabled = false
    · unfold process
      rw [if_pos hdis]
      exact ⟨rfl, rfl⟩
    · unfold process
      rw [if_neg hdis]
      rcases hfr with hfr | ⟨fw, fh, hfr, hz⟩ <;> subst hfr
      · exact ⟨rfl, rfl⟩
      · refine ⟨?_, ?_⟩ <;> simp [create_stop_output, hz]

/-- Witness for C9: the freshly constructed (still disabled) patrol mode
processed on an arbitrary tick returns the Idle zero-motion stop output,
and an enabled mode fed an empty frame stops. -/
theorem C9_witness :
    (process cfgDefault (mrun cfgDefault []) none none 0).2 =
      { velocity := 0, yaw_rate := 0, state := ModeState.idle, confidence := 0,
        message := "Mode not enabled" } ∧
    (process cfgDefault (mrun cfgDefault [MEvent.enable]) (some (0, 480)) none 0).2.velocity = 0 := by
  constructor
  · exact (C9_process_safe cfgDefault [] none none 0).1 rfl
  · exact ((C9_process_safe cfgDefault [MEvent.enable] (some (0, 480)) none 0).2
      (Or.inr ⟨0, 480, rfl, rfl⟩)).1

end Patrol

namespace UART

/-- C10: the healthy bit of get_connection_health is exactly
(missed heartbeats = 0 and connected); the enabled flag does not influence
it, and neither does the age of the last confirmed response, so a stale
link still reads healthy while nothing has been counted as missed. -/
theorem C10_connection_health (s : UARTState) (now : ℚ) (b : Bool) :
    ((get_connection_health s now).healthy = true ↔
      s.missedHeartbeats = 0 ∧ s.connected = true) ∧
    (get_connection_health { s with enabled := b } now).healthy =
      (get_connection_health s now).healthy ∧
    (get_connection_health s now).last_response_age =
      now - s.lastHeartbeatResponse ∧
    (s.missedHeartbeats = 0 → s.connected = true →
      (get_connection_health s now).healthy = true) := by
  refine ⟨?_, rfl, rfl, ?_⟩
  · simp [get_connection_health]
  · intro h1 h2
    simp [get_connection_health, h1, h2]

/-- Stale-but-healthy controller state for the C10 witness: connected, no
missed heartbeats, last response at time 0. -/
def C10state : UARTState := { connected := true }

/-- Witness for C10: at time 100 s, 100 s after the last confirmed response
(far beyond HEARTBEAT_TIMEOUT), the link still reads healthy. -/
theorem C10_witness :
    (get_connection_health C10state 100).healthy = true ∧
    (get_connection_health C10state 100).last_response_age = 100 := by
  have h := C10_connection_health C10state 100 false
  refine ⟨h.2.2.2 rfl rfl, ?_⟩
  rw [h.2.2.1]
  norm_num [C10state]

end UART

namespace Patrol

/-- A qualifying detection: right class, confidence 0.9 ≥ 0.5, box
200×300 px ≥ 3000 px², distance 2 m ≤ 3 m. -/
def C7det : DetectedObject :=
  { class_name := "person", confidence := 9/10, bbox := (100, 100, 300, 400),
    depth := 2 }

/-- The intruder record the detector derives from C7det on a 640×480
frame at time 100. -/
def C7intr : Intruder :=
  { bbox := (100, 100, 300, 400), center_x := -(3/8), center_y := 1/24,
    distance := 2, confidence := 9/10, timestamp := 100 }

lemma C7detect : detect_intruder cfgDefault 640 480 100 [C7det] = some C7intr := by
  norm_num [detect_intruder, cfgDefault, C7det, C7intr]

/-- An enabled patrol automaton one second into the Returning grace
rotation. -/
def C7state : PatrolSt :=
  { mode_state := .running, mode_enabled := true, patrol_state := .returning,
    state_start_time := 99 }

end Patrol

namespace Patrol

/-- C7 (counterexample).  The claim that the Alert state is entered only
from Patrolling or Rotating — in particular never during the Returning
grace period — is false: one second into Returning (inside the 2 s grace
rotation), a qualifying detection moves the automaton straight to Alert. -/
theorem C7_counterexample :
    C7state.patrol_state = PState.returning ∧
    (100 : ℚ) - C7state.state_start_time < 2 ∧
    (process cfgDefault C7state (some (640, 480)) (some [C7det]) 100).1.patrol_state =
      PState.alert := by
  have hc1 : cfgDefault.track_intruder = true := rfl
  have hc2 : cfgDefault.alert_duration = 3 := rfl
  have hdec : (decide ((0 : ℚ) > 1)) = false := by
    rw [decide_eq_false_iff_not]
    norm_num
  have hne1 : ¬(PState.returning = PState.alert) := by decide
  have hne2 : ¬(PState.returning = PState.tracking) := by decide
  refine ⟨rfl, by norm_num [C7state], ?_⟩
  norm_num [process, C7state, C7detect, trigger_alert, process_alert, hc1, hc2,
    hdec, hne1, hne2]

end Patrol

namespace Patrol

/-- C7 (amended).  The automaton enters Alert from ANY sub-state other than
Alert and Tracking — Patrolling, Rotating, and also Returning — whenever a
qualifying detection is found (incrementing the alert-path counter exactly
once); while already in Alert or Tracking a further qualifying detection
never re-fires the alert path. -/
theorem C7_amended_alert_entry (cfg : PatrolConfig) (s : PatrolSt) (fw fh : ℕ)
    (dets : List DetectedObject) (i : Intruder) (now : ℚ)
    (hen : s.mode_enabled = true) (hfr : ¬(fw * fh = 0))
    (hdet : detect_intruder cfg fw fh now dets = some i)
    (hal : s.patrol_state ≠ PState.alert) (htr : s.patrol_state ≠ PState.tracking)
    (hdur : 0 ≤ cfg.alert_duration) :
    (process cfg s (some (fw, fh)) (some dets) now).1.patrol_state = PState.alert ∧
    (process cfg s (some (fw, fh)) (some dets) now).1.alert_count = s.alert_count + 1 ∧
    (∀ s2 : PatrolSt, s2.mode_enabled = true →
      s2.patrol_state = PState.alert ∨ s2.patrol_state = PState.tracking →
      (process cfg s2 (some (fw, fh)) (some dets) now).1.alert_count =
        s2.alert_count) := by
  have hdec : (decide ((0 : ℚ) > 1)) = false := by
    rw [decide_eq_false_iff_not]
    norm_num
  have hd2 : ¬((0 : ℚ) > cfg.alert_duration) := not_lt.mpr hdur
  refine ⟨?_, ?_, ?_⟩
  · norm_num [process, hen, hfr, hdet, hal, htr, trigger_alert, process_alert,
      hdec, hd2]
  · norm_num [process, hen, hfr, hdet, hal, htr, trigger_alert, process_alert,
      hdec, hd2]
  · intro s2 hen2 hst
    have hcond : ¬(s2.patrol_state ≠ PState.alert ∧ s2.patrol_state ≠ PState.tracking) := by
      rcases hst with h | h <;> simp [h]
    rcases hst with h | h <;>
      norm_num [process, hen2, hfr, hdet, hcond, h]

end Patrol

namespace Patrol

/-- Witness for C7: the amended entry rule applied to the concrete
Returning-state automaton and the concrete qualifying detection; the alert
path fires exactly once. -/
theorem C7_witness :
    (process cfgDefault C7state (some (640, 480)) (some [C7det]) 100).1.alert_count =
      C7state.alert_count + 1 :=
  (C7_amended_alert_entry cfgDefault C7state 640 480 [C7det] C7intr 100
    rfl (by norm_num) C7detect (by decide) (by decide)
    (by norm_num [cfgDefault])).2.1

end Patrol

namespace Patrol

/-- C8: with the default configuration and no detections, an enabled
automaton in Patrolling moves to Rotating once its elapsed time exceeds
patrol_forward_time (5 s), incrementing the cycle counter and immediately
emitting the rotation command; Rotating falls back to Patrolling once its
elapsed time exceeds patrol_rotate_time (3 s), resuming forward motion; the
yaw-rate emitted while Rotating is rotate_yaw_rate signed by the parity of
the cycle counter, and that sign flips between consecutive cycle counts. -/
theorem C8_patrol_cycle (s : PatrolSt) (now : ℚ) (hen : s.mode_enabled = true) :
    (s.patrol_state = PState.patrolling → now - s.state_start_time > 5 →
      (process cfgDefault s (some (640, 480)) none now).1.patrol_state =
        PState.rotating ∧
      (process cfgDefault s (some (640, 480)) none now).1.patrol_cycle =
        s.patrol_cycle + 1 ∧
      (process cfgDefault s (some (640, 480)) none now).2.velocity = 0 ∧
      (process cfgDefault s (some (640, 480)) none now).2.yaw_rate =
        (1/2) * (if (s.patrol_cycle + 1) % 2 = 0 then 1 else -1)) ∧
    (s.patrol_state = PState.rotating → now - s.state_start_time > 3 →
      (process cfgDefault s (some (640, 480)) none now).1.patrol_state =
        PState.patrolling ∧
      (process cfgDefault s (some (640, 480)) none now).1.patrol_cycle =
        s.patrol_cycle ∧
      (process cfgDefault s (some (640, 480)) none now).2.velocity = 3/10 ∧
      (process cfgDefault s (some (640, 480)) none now).2.yaw_rate = 0) ∧
    (s.patrol_state = PState.rotating → ¬(now - s.state_start_time > 3) →
      (process cfgDefault s (some (640, 480)) none now).2.yaw_rate =
        (1/2) * (if s.patrol_cycle % 2 = 0 then 1 else -1)) ∧
    (∀ c : ℕ, (if (c + 1) % 2 = 0 then (1 : ℚ) else -1) =
      -(if c % 2 = 0 then (1 : ℚ) else -1)) := by
  refine ⟨?_, ?_, ?_, ?_⟩
  · intro hst ht
    norm_num [process, process_motion, PROCESS_FUEL, cfgDefault, hen, hst, ht]
  · intro hst ht
    norm_num [process, process_motion, PROCESS_FUEL, cfgDefault, hen, hst, ht]
  · intro hst hnt
    norm_num [process, process_motion, PROCESS_FUEL, cfgDefault, hen, hst, hnt]
  · intro c
    rcases Nat.mod_two_eq_zero_or_one c with h | h
    · have h1 : (c + 1) % 2 = 1 := by omega
      rw [if_pos h, if_neg (by rw [h1]; exact one_ne_zero)]
    · have h1 : (c + 1) % 2 = 0 := by omega
      rw [if_pos h1, if_neg (by rw [h]; exact one_ne_zero)]
      norm_num

end Patrol

namespace Patrol

/-- An enabled automaton freshly patrolling from time 0. -/
def C8state : PatrolSt :=
  { mode_state := .running, mode_enabled := true,
    patrol_state := .patrolling }

/-- Witness for C8: 6 s into the first forward leg (past the 5 s forward
time) with no detections, the automaton is Rotating with cycle counter 1
and emits yaw-rate −0.5 rad/s (cycle 1 is odd, so the sign is negative). -/
theorem C8_witness :
    (process cfgDefault C8state (some (640, 480)) none 6).1.patrol_state =
      PState.rotating ∧
    (process cfgDefault C8state (some (640, 480)) none 6).1.patrol_cycle = 1 ∧
    (process cfgDefault C8state (some (640, 480)) none 6).2.yaw_rate = -(1/2) := by
  have h := (C8_patrol_cycle C8state 6 rfl).1 rfl (by norm_num [C8state])
  refine ⟨h.1, ?_, ?_⟩
  · rw [h.2.1]
    rfl
  · rw [h.2.2.2]
    norm_num [C8state]

end Patrol
